import Mathlib

/-!
Verification of the focus-change notifier kernel of the
`claude-code-notifier` repository, shallowly embedded in Lean 4.

The Python code shells out to OS command-line tools.  We model one
outbound invocation by its command line (a `List String`) and an
environment that maps each command line to an outcome: either a raised
exception (timeout or any other `Exception`, carrying a message) or a
completed process with an exit code, stdout and stderr.  Functions that
must be shown to issue (or not issue) OS calls additionally return the
list of command lines they issued, in order.
-/

namespace Notifier

/-- Outcome of a completed subprocess: exit code, stdout, stderr
(mirrors the fields of `subprocess.CompletedProcess` that the code reads). -/
structure CmdResult where
  returncode : Int
  stdout : String
  stderr : String
deriving DecidableEq, Repr

/-- One outbound call either raises (timeout or other exception, with the
exception text) or completes with a `CmdResult`. -/
abbrev CallOutcome := Except String CmdResult

/-- The ambient operating system, as seen through `subprocess.run`:
a deterministic map from command lines to outcomes. -/
abbrev SubprocessEnv := List String → CallOutcome

/-- `o.completedZero` holds when the call completed with exit status 0. -/
def CallOutcome.completedZero : CallOutcome → Bool
  | .ok r => r.returncode == 0
  | .error _ => false

/-! ### Python string primitives

The Python string methods the code relies on, implemented over the
character list of a `String` by structural recursion so that every
concrete evaluation reduces inside the kernel. -/

/-- `p` is a prefix of `s` (character lists). -/
def isPrefixList : List Char → List Char → Bool
  | [], _ => true
  | _ :: _, [] => false
  | p :: ps, c :: cs => p == c && isPrefixList ps cs

/-- Splitting worker: scan `s`, cutting at each non-overlapping
occurrence of `sep`, accumulating the current piece reversed in `acc`.
The `fuel` argument (started at the length of `s`, which one scan never
exhausts) makes the recursion structural, so concrete evaluations reduce
inside the kernel. -/
def splitOnGo (sep : List Char) : Nat → List Char → List Char →
    List (List Char)
  | _, [], acc => [acc.reverse]
  | 0, s, acc => [acc.reverse ++ s]
  | fuel + 1, c :: cs, acc =>
    if isPrefixList sep (c :: cs) then
      acc.reverse :: splitOnGo sep fuel (cs.drop (sep.length - 1)) []
    else
      splitOnGo sep fuel cs (c :: acc)

/-- Python `s.split(sep)` for a non-empty separator (also the behaviour
of Lean's `String.splitOn` on non-empty separators). -/
def pySplitOn (s sep : String) : List String :=
  if sep.data.isEmpty then [s]
  else (splitOnGo sep.data s.data.length s.data []).map String.mk

/-- Strip characters satisfying `p` from both ends of a list. -/
def trimBothList (p : Char → Bool) (l : List Char) : List Char :=
  ((l.dropWhile p).reverse.dropWhile p).reverse

/-- Python `s.strip()` (whitespace from both ends). -/
def pyStrip (s : String) : String :=
  String.mk (trimBothList Char.isWhitespace s.data)

/-- Python `s.lower()`. -/
def pyToLower (s : String) : String :=
  String.mk (s.data.map Char.toLower)

/-- Python `prefix-test`: `s.startswith(p)`. -/
def pyStartsWith (s p : String) : Bool :=
  isPrefixList p.data s.data

/-- Python `c in s` for a single character. -/
def containsChar (s : String) (c : Char) : Bool :=
  s.data.contains c

/-- Python `s.replace(" ", "")`. -/
def removeSpaces (s : String) : String :=
  String.mk (s.data.filter (· != ' '))

/-- `sub` occurs somewhere in `s` (character lists). -/
def listContainsSub (s sub : List Char) : Bool :=
  isPrefixList sub s ||
    match s with
    | [] => false
    | _ :: cs => listContainsSub cs sub

/-- Substring test: Python `sub in s` / Lua `string.find` for needles
free of Lua pattern magic characters. -/
def strContains (s sub : String) : Bool :=
  listContainsSub s.data sub.data

/-- Digit-string worker for `pyToInt`. -/
def digitsToNat : List Char → Nat → Option Nat
  | [], acc => some acc
  | c :: cs, acc =>
    if 48 ≤ c.toNat ∧ c.toNat ≤ 57 then
      digitsToNat cs (acc * 10 + (c.toNat - 48))
    else none

/-- Python `int(s)` on an already-stripped decimal string: optional
sign followed by at least one digit, `ValueError` (`none`) otherwise. -/
def pyToInt (s : String) : Option Int :=
  match s.data with
  | '-' :: ds =>
    if ds.isEmpty then none
    else (digitsToNat ds 0).map (fun n => -(n : Int))
  | '+' :: ds =>
    if ds.isEmpty then none
    else (digitsToNat ds 0).map (fun n => (n : Int))
  | ds =>
    if ds.isEmpty then none
    else (digitsToNat ds 0).map (fun n => (n : Int))

/-! ## AppActivator (`src/app_activator.py`) -/

/-- The AppleScript payload `tell application id "<bundle_id>" to activate`
built by `activate_app_by_bundle_id`. -/
def activateByBundleScript (bundle_id : String) : String :=
  "tell application id \"" ++ bundle_id ++ "\" to activate"

/-- The command line issued by `activate_app_by_bundle_id`. -/
def activateByBundleCmd (bundle_id : String) : List String :=
  ["osascript", "-e", activateByBundleScript bundle_id]

/-- `AppActivator.activate_app_by_bundle_id` (src/app_activator.py:19-53).
Returns the boolean result together with the command lines issued.
An empty or `"unknown"` bundle id is rejected up front (`if not bundle_id
or bundle_id == "unknown"`); otherwise one `osascript` call is issued and
the result is `True` exactly when it exits 0 (timeouts and exceptions are
caught and yield `False`). -/
def activate_app_by_bundle_id (env : SubprocessEnv) (bundle_id : String) :
    Bool × List (List String) :=
  if bundle_id = "" ∨ bundle_id = "unknown" then
    (false, [])
  else
    let cmd := activateByBundleCmd bundle_id
    match env cmd with
    | .ok r => (r.returncode == 0, [cmd])
    | .error _ => (false, [cmd])

/-- The variation list built by `AppActivator._try_name_variations`
(src/app_activator.py:94-110): for the exact input `"Code"` it appends the
hardcoded entries `"Visual Studio Code"` and `"VSCode"`; for a name
containing a space it appends the name with spaces removed; a space-free
name (other than `"Code"`) gets no variations. -/
def nameVariations (app_name : String) : List String :=
  let variations : List String :=
    if app_name = "Code" then ["Visual Studio Code", "VSCode"] else []
  let variations :=
    if containsChar app_name ' ' then
      variations ++ [removeSpaces app_name]
    else variations
  variations

/-- The AppleScript payload `tell application "<name>" to activate`. -/
def activateByNameScript (app_name : String) : String :=
  "tell application \"" ++ app_name ++ "\" to activate"

/-- The command line issued when activating by display name. -/
def activateByNameCmd (app_name : String) : List String :=
  ["osascript", "-e", activateByNameScript app_name]

/-- The loop of `_try_name_variations` (src/app_activator.py:112-133):
try each variation in order, returning `True` on the first that exits 0;
exceptions are swallowed and the loop continues. -/
def tryVariationsLoop (env : SubprocessEnv) :
    List String → Bool × List (List String)
  | [] => (false, [])
  | v :: rest =>
    let cmd := activateByNameCmd v
    match env cmd with
    | .ok r =>
      if r.returncode == 0 then (true, [cmd])
      else
        let bt := tryVariationsLoop env rest
        (bt.1, cmd :: bt.2)
    | .error _ =>
      let bt := tryVariationsLoop env rest
      (bt.1, cmd :: bt.2)

/-- `AppActivator._try_name_variations` (src/app_activator.py:94-133). -/
def try_name_variations (env : SubprocessEnv) (app_name : String) :
    Bool × List (List String) :=
  tryVariationsLoop env (nameVariations app_name)

/-- `AppActivator.activate_app_by_name` (src/app_activator.py:55-92):
reject empty/`"unknown"`; try the exact name; on a completed non-zero
exit, fall through to the name variations; on timeout or exception
return `False` directly. -/
def activate_app_by_name (env : SubprocessEnv) (app_name : String) :
    Bool × List (List String) :=
  if app_name = "" ∨ app_name = "unknown" then
    (false, [])
  else
    let cmd := activateByNameCmd app_name
    match env cmd with
    | .ok r =>
      if r.returncode == 0 then (true, [cmd])
      else
        let bt := try_name_variations env app_name
        (bt.1, cmd :: bt.2)
    | .error _ => (false, [cmd])

/-- The `which terminal-notifier` probe issued by `send_notification`. -/
def whichCmd : List String := ["which", "terminal-notifier"]

/-- The `terminal-notifier` command line built by `send_notification`
(src/app_activator.py:162-174); `-activate` is appended only when a
bundle id is present, non-empty and not the `"unknown"` sentinel. -/
def terminalNotifierCmd (title message : String) (bundle_id : Option String) :
    List String :=
  let cmd := ["terminal-notifier", "-title", title, "-message", message,
              "-sound", "Hero"]
  match bundle_id with
  | some b => if b ≠ "" ∧ b ≠ "unknown" then cmd ++ ["-activate", b] else cmd
  | none => cmd

/-- The AppleScript payload of `_send_basic_notification`
(src/app_activator.py:191-193). -/
def basicNotificationScript (title message : String) : String :=
  "display notification \"" ++ message ++ "\" with title \"" ++ title ++
    "\" sound name \"Hero\""

/-- The command line issued by `_send_basic_notification`. -/
def basicNotificationCmd (title message : String) : List String :=
  ["osascript", "-e", basicNotificationScript title message]

/-- `AppActivator._send_basic_notification` (src/app_activator.py:188-207):
one `osascript` call; `True` exactly when it exits 0, exceptions give
`False`. -/
def send_basic_notification (env : SubprocessEnv) (title message : String) :
    Bool × List (List String) :=
  let cmd := basicNotificationCmd title message
  match env cmd with
  | .ok r => (r.returncode == 0, [cmd])
  | .error _ => (false, [cmd])

/-- `AppActivator.send_notification` (src/app_activator.py:135-186):
probe for `terminal-notifier` with `which`; when the probe completes
non-zero, fall back to the basic notification; when the probe or the
`terminal-notifier` run raises, the outer `except` also falls back to the
basic notification; a completed non-zero `terminal-notifier` run falls
back as well; only an exit-0 `terminal-notifier` run returns `True`
without touching the basic primitive. -/
def send_notification (env : SubprocessEnv) (title message : String)
    (bundle_id : Option String) : Bool × List (List String) :=
  match env whichCmd with
  | .error _ =>
    let bt := send_basic_notification env title message
    (bt.1, whichCmd :: bt.2)
  | .ok r =>
    if r.returncode ≠ 0 then
      let bt := send_basic_notification env title message
      (bt.1, whichCmd :: bt.2)
    else
      let cmd := terminalNotifierCmd title message bundle_id
      match env cmd with
      | .ok r2 =>
        if r2.returncode == 0 then (true, [whichCmd, cmd])
        else
          let bt := send_basic_notification env title message
          (bt.1, whichCmd :: cmd :: bt.2)
      | .error _ =>
        let bt := send_basic_notification env title message
        (bt.1, whichCmd :: cmd :: bt.2)

/-! ## AppDetector (`src/app_detector.py`) -/

/-- The dict returned by `AppDetector.get_current_app_info` and its
helpers.  Each field is `Option` because the Python dict may or may not
carry the corresponding key (`none` models an absent key). -/
structure AppInfo where
  name : Option String := none
  bundle_id : Option String := none
  pid : Option Int := none
  window_title : Option String := none
  method : Option String := none
deriving DecidableEq, Repr

/-- Python's `str.strip()` of the `"` character on both ends
(`.strip('"')` in `_parse_lsappinfo_output`). -/
def stripQuotes (s : String) : String :=
  String.mk (((s.toList.dropWhile (· == '"')).reverse.dropWhile
    (· == '"')).reverse)

/-- Python's `s.split(sep, maxsplit)`: at most `maxsplit` splits, the
remainder kept whole in the last piece. -/
def pySplitMax (s sep : String) (maxsplit : Nat) : List String :=
  let ps := pySplitOn s sep
  if ps.length ≤ maxsplit + 1 then ps
  else ps.take maxsplit ++ [String.intercalate sep (ps.drop maxsplit)]

/-- One line of `_parse_lsappinfo_output` (src/app_detector.py:85-97):
lines without `=` are skipped; otherwise split once on `=`, strip
whitespace and quotes from key and value, and record `pid` (integer
parse, `ValueError` suppressed), `CFBundleIdentifier` and
`LSDisplayName`. -/
def parseLsappinfoLine (info : AppInfo) (line : String) : AppInfo :=
  if (pySplitOn line "=").length ≥ 2 then
    let parts := pySplitMax line "=" 1
    let key := stripQuotes (pyStrip (parts.getD 0 ""))
    let value := stripQuotes (pyStrip (parts.getD 1 ""))
    if key = "pid" then
      match pyToInt value with
      | some n => { info with pid := some n }
      | none => info
    else if key = "CFBundleIdentifier" then
      { info with bundle_id := some value }
    else if key = "LSDisplayName" then
      { info with name := some value }
    else info
  else info

/-- `AppDetector._parse_lsappinfo_output` (src/app_detector.py:81-99):
starts from the empty dict and folds the lines of the stripped output. -/
def parse_lsappinfo_output (output : String) : AppInfo :=
  (pySplitOn (pyStrip output) "\n").foldl parseLsappinfoLine {}

/-- Outcomes of the four distinct outbound calls that
`AppDetector.get_current_app_info` can make.  `info` is keyed by the ASN
string passed to `lsappinfo info`. -/
structure DetectorEnv where
  front : CallOutcome
  info : String → CallOutcome
  windowTitle : CallOutcome
  fallback : CallOutcome

/-- `AppDetector._get_current_window_title` (src/app_detector.py:101-122):
`some (stdout.strip())` when the `osascript` call exits 0, else `None`. -/
def get_current_window_title (env : DetectorEnv) : Option String :=
  match env.windowTitle with
  | .ok r => if r.returncode == 0 then some (pyStrip r.stdout) else none
  | .error _ => none

/-- The ultimate-fallback dict of `_get_fallback_app_info`
(src/app_detector.py:152-157). -/
def ultimateFallbackInfo : AppInfo :=
  { name := some "unknown", bundle_id := some "unknown", pid := some 0,
    method := some "ultimate_fallback" }

/-- `AppDetector._get_fallback_app_info` (src/app_detector.py:124-157):
one `osascript` query for the frontmost process name; on exit 0 a
`fallback` dict with the stripped stdout as name, otherwise (non-zero
exit or exception) the ultimate-fallback dict. -/
def get_fallback_app_info (env : DetectorEnv) : AppInfo :=
  match env.fallback with
  | .ok r =>
    if r.returncode == 0 then
      { name := some (pyStrip r.stdout), bundle_id := some "unknown",
        pid := some 0, method := some "fallback" }
    else ultimateFallbackInfo
  | .error _ => ultimateFallbackInfo

/-- Python's `str.rstrip(":")`. -/
def rstripColons (s : String) : String :=
  String.mk ((s.toList.reverse.dropWhile (· == ':')).reverse)

/-- `AppDetector.get_current_app_info` (src/app_detector.py:24-79):
`lsappinfo front`, then `lsappinfo info` on the parsed ASN, then a
best-effort window title (attached only when truthy, i.e. non-empty);
every failure along the primary chain diverts to
`_get_fallback_app_info`. -/
def get_current_app_info (env : DetectorEnv) : AppInfo :=
  match env.front with
  | .error _ => get_fallback_app_info env
  | .ok r =>
    if r.returncode ≠ 0 then get_fallback_app_info env
    else
      let asn_line := pyStrip r.stdout
      if containsChar asn_line ':' then
        let asn := rstripColons asn_line
        match env.info asn with
        | .error _ => get_fallback_app_info env
        | .ok r2 =>
          if r2.returncode ≠ 0 then get_fallback_app_info env
          else
            let parsed := parse_lsappinfo_output r2.stdout
            match get_current_window_title env with
            | some t =>
              if t ≠ "" then { parsed with window_title := some t }
              else parsed
            | none => parsed
      else get_fallback_app_info env

/-- The primary query chain fails: `lsappinfo front` raises, exits
non-zero or prints no `:`, or `lsappinfo info` on the parsed ASN raises
or exits non-zero. -/
def primaryQueryFails (env : DetectorEnv) : Bool :=
  match env.front with
  | .error _ => true
  | .ok r =>
    if r.returncode ≠ 0 then true
    else
      let asn_line := pyStrip r.stdout
      if containsChar asn_line ':' then
        match env.info (rstripColons asn_line) with
        | .error _ => true
        | .ok r2 => r2.returncode ≠ 0
      else true

/-- The secondary (accessibility) fallback query fails: the `osascript`
frontmost-process query raises or exits non-zero. -/
def secondaryQueryFails (env : DetectorEnv) : Bool :=
  match env.fallback with
  | .ok r => r.returncode ≠ 0
  | .error _ => true

/-! ## HammerspoonFocuser (`src/hammerspoon_focuser.py`)

The focusing and window-listing logic lives in Lua scripts that the
Python code sends to the Hammerspoon CLI.  We embed the Lua semantics as
functions over the window state the bridge would report: each window has
an optional title (`win:title() or ...` treats a `nil` title via the
`or` fallback) and a focus outcome.  `string.find` on the lowered title
is modelled as case-insensitive substring search, which coincides with
Lua's behaviour for needles free of Lua pattern magic characters (all
titles considered here). -/

/-- One window as seen by the Lua scripts: its `title()` (possibly nil)
and whether `focus()` on it reports success. -/
structure LuaWindow where
  title : Option String := none
  focusSucceeds : Bool := false
deriving DecidableEq, Repr

/-- The per-window match test of the title branch of the Lua script
(src/hammerspoon_focuser.py:79-85): `string.find(string.lower(title),
string.lower(window_title))` with `title = win:title() or ""`. -/
def luaTitleMatches (window_title : String) (w : LuaWindow) : Bool :=
  strContains (pyToLower (w.title.getD "")) (pyToLower window_title)

/-- Target selection of the generated Lua script
(src/hammerspoon_focuser.py:75-92, 108-110): with a `window_title`, the
first window of `otherWindows` whose lowered title contains the lowered
needle, falling back to `otherWindows[1]` (`targetWindow = targetWindow
or otherWindows[1]`); without a title, `otherWindows[1]`. -/
def selectTargetWindow (window_title : Option String)
    (otherWindows : List LuaWindow) : Option LuaWindow :=
  match window_title with
  | some t =>
    match otherWindows.find? (luaTitleMatches t) with
    | some w => some w
    | none => otherWindows.head?
  | none => otherWindows.head?

/-- The stdout printed by the focus Lua script
(src/hammerspoon_focuser.py:94-131) as a function of the cross-space
window list and the per-window focus outcome. -/
def luaFocusScriptOutput (window_title : Option String)
    (otherWindows : List LuaWindow) : String :=
  if otherWindows.length > 0 then
    match selectTargetWindow window_title otherWindows with
    | some w =>
      if w.focusSucceeds then "SUCCESS:Focused cross-space window"
      else "ERROR:Focus command failed"
    | none => "ERROR:No matching window found"
  else "ERROR:No cross-space windows found"

/-- How a `subprocess.run` of a Hammerspoon script ends: a raised
exception (timeout or other), a completed run with non-zero exit, or a
completed exit-0 run — in which case stdout is whatever the Lua script
printed against the modelled window state. -/
inductive ScriptRunOutcome where
  | raised (msg : String)
  | exitNonzero
  | completed
deriving DecidableEq, Repr

/-- Environment of a `HammerspoonFocuser`: the CLI path discovered by
`_find_hammerspoon_cli` (or `None`), the outcome of the availability
probe, the outcome of a script run, and the window state the Lua scripts
execute against when a run completes. -/
structure FocuserEnv where
  cliPath : Option String := none
  availProbe : CallOutcome := .error "no cli"
  scriptRun : ScriptRunOutcome := .raised "no cli"
  otherWindows : List LuaWindow := []
  currentWindows : List LuaWindow := []
  currentSpace : String := ""
  windowSpace : LuaWindow → Option String := fun _ => none

/-- `HammerspoonFocuser.is_available` (src/hammerspoon_focuser.py:40-55):
`False` without a CLI path; otherwise the `print('test')` probe must
complete with exit 0. -/
def is_available (env : FocuserEnv) : Bool :=
  match env.cliPath with
  | none => false
  | some _ =>
    match env.availProbe with
    | .ok r => r.returncode == 0
    | .error _ => false

/-- `HammerspoonFocuser.focus_app_window` (src/hammerspoon_focuser.py:57-160)
with the Lua selection semantics inlined: unavailable bridge → `False`;
script raises → `False`; completes non-zero → `False`; completes with
exit 0 → `True` exactly when the script's stdout contains `SUCCESS:`.
A completed exit-0 run returns `"SUCCESS:" in result.stdout.strip()`. -/
def focus_app_window (env : FocuserEnv) (window_title : Option String) :
    Bool :=
  if ¬ is_available env then false
  else
    match env.scriptRun with
    | .raised _ => false
    | .exitNonzero => false
    | .completed =>
      strContains (pyStrip (luaFocusScriptOutput window_title env.otherWindows))
        "SUCCESS:"

/-- One parsed window entry of `_parse_windows_info`
(src/hammerspoon_focuser.py:249-257). -/
structure WinEntry where
  index : Int
  title : String
  space : String
deriving DecidableEq, Repr

/-- The info dict built by `_parse_windows_info`
(src/hammerspoon_focuser.py:231-237). -/
structure WindowsInfo where
  current_space : Option String := none
  current_windows : List WinEntry := []
  cross_space_windows : List WinEntry := []
  total_current : Int := 0
  total_cross_space : Int := 0
deriving DecidableEq, Repr

/-- Result of `get_app_windows_info`: either an error dict
(`{"error": msg}`, carrying no window lists) or the parsed info dict. -/
inductive WindowsResult where
  | error (msg : String)
  | info (wi : WindowsInfo)
deriving DecidableEq, Repr

/-- One line of `_parse_windows_info` (src/hammerspoon_focuser.py:239-257).
The `int(...)` conversions are unguarded in the source, so a non-integer
field raises `ValueError` (propagated here as `.error`), which the caller
turns into an error dict. -/
def parseWindowsInfoLine (info : WindowsInfo) (line : String) :
    Except String WindowsInfo :=
  if pyStartsWith line "CURRENT_SPACE:" then
    .ok { info with current_space := some ((pySplitMax line ":" 1).getD 1 "") }
  else if pyStartsWith line "CURRENT_WINDOWS:" then
    match pyToInt ((pySplitMax line ":" 1).getD 1 "") with
    | some n => .ok { info with total_current := n }
    | none => .error "ValueError"
  else if pyStartsWith line "CROSS_SPACE_WINDOWS:" then
    match pyToInt ((pySplitMax line ":" 1).getD 1 "") with
    | some n => .ok { info with total_cross_space := n }
    | none => .error "ValueError"
  else if pyStartsWith line "CURRENT:" then
    let parts := pySplitMax line ":" 3
    if parts.length ≥ 4 then
      match pyToInt (parts.getD 1 "") with
      | some n =>
        .ok { info with current_windows := info.current_windows ++
          [{ index := n, title := parts.getD 2 "", space := parts.getD 3 "" }] }
      | none => .error "ValueError"
    else .ok info
  else if pyStartsWith line "CROSS_SPACE:" then
    let parts := pySplitMax line ":" 3
    if parts.length ≥ 4 then
      match pyToInt (parts.getD 1 "") with
      | some n =>
        .ok { info with cross_space_windows := info.cross_space_windows ++
          [{ index := n, title := parts.getD 2 "", space := parts.getD 3 "" }] }
      | none => .error "ValueError"
    else .ok info
  else .ok info

/-- `HammerspoonFocuser._parse_windows_info`
(src/hammerspoon_focuser.py:229-259). -/
def parse_windows_info (output : String) : Except String WindowsInfo :=
  (pySplitOn (pyStrip output) "\n").foldlM parseWindowsInfoLine {}

/-- The stdout printed by the window-listing Lua script
(src/hammerspoon_focuser.py:175-210) over the modelled window state. -/
def luaWindowsInfoOutput (env : FocuserEnv) : String :=
  let entryLines (tag : String) (ws : List LuaWindow) : List String :=
    ws.enum.map fun p =>
      let title := p.2.title.getD "NO_TITLE"
      let spaceInfo := (env.windowSpace p.2).getD "UNKNOWN"
      tag ++ toString (p.1 + 1) ++ ":" ++ title ++ ":" ++ spaceInfo
  String.intercalate "\n"
    (["CURRENT_SPACE:" ++ env.currentSpace,
      "CURRENT_WINDOWS:" ++ toString env.currentWindows.length,
      "CROSS_SPACE_WINDOWS:" ++ toString env.otherWindows.length] ++
     entryLines "CURRENT:" env.currentWindows ++
     entryLines "CROSS_SPACE:" env.otherWindows)

/-- `HammerspoonFocuser.get_app_windows_info`
(src/hammerspoon_focuser.py:162-227): bridge unavailable → the
`{"error": "Hammerspoon not available"}` dict; script raises → an error
dict with the exception text; completes non-zero → the
`{"error": "Script execution failed"}` dict; completes with exit 0 →
parse the Lua output (a `ValueError` during parsing is caught by the
surrounding `try` and becomes an error dict as well). -/
def get_app_windows_info (env : FocuserEnv) : WindowsResult :=
  if ¬ is_available env then .error "Hammerspoon not available"
  else
    match env.scriptRun with
    | .raised e => .error e
    | .exitNonzero => .error "Script execution failed"
    | .completed =>
      match parse_windows_info (luaWindowsInfoOutput env) with
      | .ok wi => .info wi
      | .error e => .error e

/-! ## ClaudeNotifier (`src/claude_notifier.py`)

A Python attribute that was never assigned is modelled as an
`Option` field holding `none`; reading it then raises `AttributeError`. -/

/-- Exceptions distinguished by the notifier's handlers. -/
inductive PyErr where
  | attributeError
deriving DecidableEq, Repr

/-- The `originating_context` dict built by
`_determine_originating_context` (src/claude_notifier.py:51-83). -/
structure ContextInfo where
  project_name : String
  expected_window : String
  expected_app : String
  expected_bundle_id : String
deriving DecidableEq, Repr

/-- Segments of a POSIX path as produced by `pathlib.Path(...).parts`:
a leading `/` becomes its own part, empty and `.` segments vanish. -/
def pathParts (s : String) : List String :=
  let segs := (pySplitOn s "/").filter (fun x => x ≠ "" ∧ x ≠ ".")
  if pyStartsWith s "/" then "/" :: segs else segs

/-- `pathlib.Path(...).name`: the last non-root part, `""` if none. -/
def pathName (s : String) : String :=
  ((pySplitOn s "/").filter (fun x => x ≠ "" ∧ x ≠ ".")).getLastD ""

/-- `ClaudeNotifier._determine_originating_context`
(src/claude_notifier.py:51-83): on a readable working directory, the
project name is its last path segment and the expected window/app/bundle
are the VS Code guesses; if `os.getcwd()` raises, every field is the
`"unknown"` sentinel. -/
def determine_originating_context (cwd : Except String String) :
    ContextInfo :=
  match cwd with
  | .ok c =>
    let project_name := pathName c
    { project_name,
      expected_window := "Claude Code — " ++ project_name,
      expected_app := "Code",
      expected_bundle_id := "com.microsoft.VSCode" }
  | .error _ =>
    { project_name := "unknown", expected_window := "unknown",
      expected_app := "unknown", expected_bundle_id := "unknown" }

/-- Instance state of a `ClaudeNotifier`.  `originating_app_info` models
the `self.originating_app_info` attribute: `none` means the attribute
does not exist on the object. -/
structure NotifierState where
  originating_context : ContextInfo
  originating_app_info : Option AppInfo
deriving DecidableEq, Repr

/-- `ClaudeNotifier.__init__` (src/claude_notifier.py:30-49): assigns
`self.originating_context` and never assigns `self.originating_app_info`. -/
def notifierInit (cwd : Except String String) : NotifierState :=
  { originating_context := determine_originating_context cwd,
    originating_app_info := none }

/-- `dict.get("name", "unknown")` on an app-info dict. -/
def getInfoName (info : AppInfo) : String :=
  info.name.getD "unknown"

/-- The comparison at the heart of `ClaudeNotifier.should_notify`
(src/claude_notifier.py:104-114): notify exactly when the current app
name differs from the originating app name, both read with the
`"unknown"` default. -/
def shouldNotifyDecision (originating current : AppInfo) : Bool :=
  getInfoName current != getInfoName originating

/-- The JSON hook payload: presence of the keys the code reads. -/
structure HookData where
  message : Option String := none
  title : Option String := none
  project : Option String := none
  transcript_path : Option String := none
deriving DecidableEq, Repr

/-- External collaborators of a `ClaudeNotifier` run: the working
directory, the detector's snapshot (its `get_current_app_info` never
raises), Hammerspoon availability, and the boolean results of the
activator calls (both catch all their exceptions). -/
structure NotifierEnv where
  cwd : Except String String := .error "oserror"
  currentAppInfo : AppInfo := {}
  hammerspoonAvailable : Bool := false
  sendNotificationOk : String → String → Option String → Bool :=
    fun _ _ _ => false
  activateWithNotificationOk : Bool := false

/-- `ClaudeNotifier.should_notify` (src/claude_notifier.py:85-114):
reads the fresh snapshot, then `self.originating_app_info` — which
raises `AttributeError` when the attribute was never assigned — and
compares the two names. -/
def should_notify (st : NotifierState) (env : NotifierEnv) :
    Except PyErr Bool :=
  let current := env.currentAppInfo
  match st.originating_app_info with
  | none => .error .attributeError
  | some originating => .ok (shouldNotifyDecision originating current)

/-- `ClaudeNotifier._send_hammerspoon_notification`
(src/claude_notifier.py:165-193): reads
`self.originating_app_info.get("bundle_id")` (an `AttributeError` here is
caught by its own `except` and becomes `False`), then delegates to the
activator's `send_notification`. -/
def send_hammerspoon_notification (st : NotifierState) (env : NotifierEnv)
    (title message : String) : Bool :=
  match st.originating_app_info with
  | none => false
  | some originating =>
    env.sendNotificationOk title message originating.bundle_id

/-- `ClaudeNotifier.send_notification_and_focus`
(src/claude_notifier.py:116-163): suppressed (`False`) when
`should_notify` is `False`; otherwise try the Hammerspoon-flavoured
notification when the bridge is available, falling back to
`activate_with_notification`.  Uncaught exceptions (the `AttributeError`
from `should_notify` or from the `self.originating_app_info.get` on line
135) propagate to the caller. -/
def send_notification_and_focus (st : NotifierState) (env : NotifierEnv)
    (title message : String) (project_name : Option String) :
    Except PyErr Bool := do
  let sn ← should_notify st env
  if sn = false then
    return false
  match st.originating_app_info with
  | none => throw .attributeError
  | some _ =>
    let enhanced_message :=
      match project_name with
      | some p => if p = "" then message else message ++ " in " ++ p
      | none => message
    if env.hammerspoonAvailable then
      if send_hammerspoon_notification st env title enhanced_message then
        return true
      else
        return env.activateWithNotificationOk
    else
      return env.activateWithNotificationOk

/-- `ClaudeNotifier._extract_project_name` (src/claude_notifier.py:266-290):
the hook's `project` value, else the path segment before a `.claude`
segment of a truthy `transcript_path` (when that segment is not first),
else the working directory's last segment, else `None`. -/
def extract_project_name (env : NotifierEnv) (hook_data : Option HookData) :
    Option String :=
  match hook_data with
  | some h =>
    match h.project with
    | some p => some p
    | none =>
      let fromTranscript : Option String :=
        match h.transcript_path with
        | some tp =>
          if tp ≠ "" then
            let parts := pathParts tp
            match parts.findIdx? (· = ".claude") with
            | some i => if i > 0 then parts.get? (i - 1) else none
            | none => none
          else none
        | none => none
      match fromTranscript with
      | some p => some p
      | none =>
        match env.cwd with
        | .ok c => some (pathName c)
        | .error _ => none
  | none =>
    match env.cwd with
    | .ok c => some (pathName c)
    | .error _ => none

/-- `ClaudeNotifier.handle_claude_completion`
(src/claude_notifier.py:195-228): returns `True` whenever its `try`
body completes — whether or not a notification went out — and `False`
exactly when an exception was raised inside it. -/
def handle_claude_completion (st : NotifierState) (env : NotifierEnv)
    (hook_data : Option HookData) : Bool :=
  let project_name := extract_project_name env hook_data
  match send_notification_and_focus st env "Claude Code" "Task completed"
      project_name with
  | .ok _ => true
  | .error _ => false

/-- `ClaudeNotifier.handle_claude_notification`
(src/claude_notifier.py:230-264): like completion handling but with the
hook-supplied message/title when a `message` key is present. -/
def handle_claude_notification (st : NotifierState) (env : NotifierEnv)
    (hook_data : Option HookData) : Bool :=
  let project_name := extract_project_name env hook_data
  let tm : String × String :=
    match hook_data with
    | some h =>
      match h.message with
      | some m => (h.title.getD "Claude Code", m)
      | none => ("Claude Code", "Notification")
    | none => ("Claude Code", "Notification")
  match send_notification_and_focus st env tm.1 tm.2 project_name with
  | .ok _ => true
  | .error _ => false

/-- The handler dispatch and `success` value of `main`
(src/claude_notifier.py:313-331): `argv` is the argument list after the
program name and `hook_data` the parsed stdin payload (malformed or
absent input is already `none`). -/
def mainHandlerResult (env : NotifierEnv) (argv : List String)
    (hook_data : Option HookData) : Bool :=
  let st := notifierInit env.cwd
  let hook_type := pyToLower (argv.headD "completion")
  if hook_type = "completion" ∨ hook_type = "stop" then
    handle_claude_completion st env hook_data
  else if hook_type = "notification" ∨ hook_type = "notify" then
    handle_claude_notification st env hook_data
  else
    match hook_data with
    | some h =>
      if h.message.isSome then handle_claude_notification st env hook_data
      else handle_claude_completion st env hook_data
    | none => handle_claude_completion st env hook_data

/-- The process exit status of `main` (src/claude_notifier.py:333):
`sys.exit(0 if success else 1)`. -/
def mainExitCode (env : NotifierEnv) (argv : List String)
    (hook_data : Option HookData) : Nat :=
  if mainHandlerResult env argv hook_data then 0 else 1

/-! ## Theorems -/

/-- C1: the focus-change decision of `should_notify` returns `True` iff
the two snapshots' names (read with the `"unknown"` default) differ; it
is reflexively `False`, and two snapshots whose names are both
`"unknown"` compare as unchanged. -/
theorem c1_should_notify_name_comparison :
    ∀ a b : AppInfo,
      (shouldNotifyDecision a b = true ↔ getInfoName a ≠ getInfoName b) ∧
      shouldNotifyDecision a a = false ∧
      (getInfoName a = "unknown" → getInfoName b = "unknown" →
        shouldNotifyDecision a b = false) := by
  intro a b
  refine ⟨?_, ?_, ?_⟩
  · simp [shouldNotifyDecision, bne_iff_ne]
    exact ne_comm
  · simp [shouldNotifyDecision]
  · intro ha hb
    simp [shouldNotifyDecision, ha, hb]

/-- Witness for C1 at two concrete snapshots whose names are both
`"unknown"`. -/
theorem c1_should_notify_name_comparison_witness :
    shouldNotifyDecision { name := some "unknown" } { name := none } =
      false :=
  (c1_should_notify_name_comparison { name := some "unknown" }
    { name := none }).2.2 rfl rfl

/-- C2: for every notifier built by `__init__` (which assigns
`originating_context` but never `originating_app_info`) and every hook
payload and environment, both handlers return `False`: `should_notify`
raises `AttributeError`, which the handlers' `except` clauses turn into
`False`; the success branch is unreachable. -/
theorem c2_handlers_always_false :
    ∀ (cwd : Except String String) (env : NotifierEnv)
      (hook_data : Option HookData),
      handle_claude_completion (notifierInit cwd) env hook_data = false ∧
      handle_claude_notification (notifierInit cwd) env hook_data =
        false := by
  intro cwd env hook_data
  exact ⟨rfl, rfl⟩

/-- C5: the code evaluation behind the variation-list claim — the input
`"Code"` maps to the hardcoded product-specific list
`["Visual Studio Code", "VSCode"]`, while generic inputs only get the
space-stripping transform. -/
theorem c5_variations_hardcoded_for_code :
    nameVariations "Code" = ["Visual Studio Code", "VSCode"] ∧
    nameVariations "Terminal" = [] ∧
    nameVariations "My App" = ["MyApp"] := by
  refine ⟨rfl, rfl, ?_⟩
  decide

/-- C8: `activate_app_by_bundle_id` rejects `""` and `"unknown"` without
issuing any outbound OS call; for any other bundle id it issues exactly
the `osascript` activate command and returns `True` iff that command
completed with exit status 0. -/
theorem c8_activate_by_bundle_id :
    ∀ (env : SubprocessEnv) (bundle_id : String),
      ((bundle_id = "" ∨ bundle_id = "unknown") →
        activate_app_by_bundle_id env bundle_id = (false, [])) ∧
      (bundle_id ≠ "" → bundle_id ≠ "unknown" →
        (activate_app_by_bundle_id env bundle_id).2 =
          [activateByBundleCmd bundle_id] ∧
        ((activate_app_by_bundle_id env bundle_id).1 = true ↔
          (env (activateByBundleCmd bundle_id)).completedZero = true)) := by
  intro env bundle_id
  constructor
  · intro h
    simp [activate_app_by_bundle_id, h]
  · intro h1 h2
    simp only [activate_app_by_bundle_id, h1, h2, or_self, if_false]
    cases henv : env (activateByBundleCmd bundle_id) with
    | ok r => simp [CallOutcome.completedZero, henv]
    | error e => simp [CallOutcome.completedZero, henv]

/-- Witness for C8: the sentinel inputs issue no call, and a bundle id
whose activate command exits 0 yields `True`. -/
theorem c8_activate_by_bundle_id_witness :
    activate_app_by_bundle_id (fun _ => .ok ⟨0, "", ""⟩) "unknown" =
      (false, []) ∧
    (activate_app_by_bundle_id (fun _ => .ok ⟨0, "", ""⟩)
      "com.microsoft.VSCode").1 = true :=
  ⟨(c8_activate_by_bundle_id (fun _ => .ok ⟨0, "", ""⟩) "unknown").1
      (Or.inr rfl),
   ((c8_activate_by_bundle_id (fun _ => .ok ⟨0, "", ""⟩)
      "com.microsoft.VSCode").2 (by decide) (by decide)).2.mpr rfl⟩

/-- C3: evaluation at the failing input.  A completion-hook run in which
the user is still focused on the originating app (current app `"Code"`,
readable working directory) should be a correctly-suppressed success and
exit `0` per the claim and the handlers' own documentation (`True if
handled successfully`); instead the handler reports failure — the
`AttributeError` on the never-assigned `originating_app_info` fires
before the suppression comparison — and the entry point exits `1`. -/
theorem c3_suppressed_run_exits_one :
    mainHandlerResult
      { cwd := .ok "/Users/u/projects/my-proj",
        currentAppInfo := { name := some "Code" } } ["completion"] none =
      false ∧
    mainExitCode
      { cwd := .ok "/Users/u/projects/my-proj",
        currentAppInfo := { name := some "Code" } } ["completion"] none =
      1 := by
  refine ⟨by decide, by decide⟩

/-- C4 counterexample: with the scripting-bridge executable not located,
`get_app_windows_info` returns the `{"error": "Hammerspoon not
available"}` dict, which contains no window lists at all — not a result
with two empty window lists. -/
theorem c4_counterexample :
    get_app_windows_info {} = .error "Hammerspoon not available" ∧
    ¬ ∃ wi : WindowsInfo, get_app_windows_info {} = .info wi ∧
        wi.current_windows = [] ∧ wi.cross_space_windows = [] := by
  refine ⟨rfl, ?_⟩
  rintro ⟨wi, h, -, -⟩
  rw [show get_app_windows_info {} = .error "Hammerspoon not available"
    from rfl] at h
  exact WindowsResult.noConfusion h

/-- C4 amended: if the bridge executable cannot be located (or its
availability probe fails), or the window query raises or returns a
non-zero exit status, `get_app_windows_info` returns an error dict —
a result carrying only an error message and no window lists — and does
not raise (the embedding is a total function). -/
theorem c4_error_dict_on_failure :
    ∀ env : FocuserEnv,
      is_available env = false ∨ env.scriptRun = .exitNonzero ∨
        (∃ m, env.scriptRun = .raised m) →
      ∃ msg, get_app_windows_info env = .error msg := by
  intro env h
  unfold get_app_windows_info
  cases hav : is_available env with
  | false => exact ⟨"Hammerspoon not available", by simp⟩
  | true =>
    rcases h with h | h | ⟨m, h⟩
    · exact absurd hav (by simp [h])
    · exact ⟨"Script execution failed", by simp [h]⟩
    · exact ⟨m, by simp [h]⟩

/-- Witness for C4 (amended): the default environment has no bridge, and
the result is an error dict. -/
theorem c4_error_dict_on_failure_witness :
    ∃ msg, get_app_windows_info {} = .error msg :=
  c4_error_dict_on_failure {} (Or.inl rfl)

/-- C7: when the primary query chain and the secondary accessibility
fallback query both fail, `get_current_app_info` returns exactly the
ultimate-fallback snapshot (`name="unknown"`, `bundle_id="unknown"`,
`pid=0`, `method="ultimate_fallback"`); the embedding is total, so
nothing propagates to the caller. -/
theorem c7_ultimate_fallback :
    ∀ env : DetectorEnv,
      primaryQueryFails env = true → secondaryQueryFails env = true →
      get_current_app_info env = ultimateFallbackInfo := by
  intro env h1 h2
  have hfb : get_fallback_app_info env = ultimateFallbackInfo := by
    unfold secondaryQueryFails at h2
    unfold get_fallback_app_info
    cases hf : env.fallback with
    | error e => rfl
    | ok r =>
      rw [hf] at h2
      simp only [decide_eq_true_eq] at h2
      simp [beq_iff_eq, h2]
  unfold primaryQueryFails at h1
  unfold get_current_app_info
  cases hf : env.front with
  | error e => exact hfb
  | ok r =>
    rw [hf] at h1
    by_cases hr : r.returncode ≠ 0
    · simp [hr, hfb]
    · simp only [hr, if_false] at h1 ⊢
      by_cases hc : containsChar (pyStrip r.stdout) ':' = true
      · simp only [hc, if_true] at h1 ⊢
        cases hi : env.info (rstripColons (pyStrip r.stdout)) with
        | error e => simp [hi, hfb]
        | ok r2 =>
          rw [hi] at h1
          simp only [decide_eq_true_eq] at h1
          simp [h1, hfb]
      · simp only [Bool.not_eq_true] at hc
        simp [hc, hfb]

/-- Witness for C7: a concrete environment where every outbound call
raises. -/
theorem c7_ultimate_fallback_witness :
    get_current_app_info
      { front := .error "timeout", info := fun _ => .error "timeout",
        windowTitle := .error "timeout", fallback := .error "timeout" } =
      ultimateFallbackInfo :=
  c7_ultimate_fallback
    { front := .error "timeout", info := fun _ => .error "timeout",
      windowTitle := .error "timeout", fallback := .error "timeout" }
    rfl rfl

/-- The built-in notification primitive succeeds in `env` for the given
title and message (exit status 0 of the `osascript` display call). -/
def basicPrimitiveSucceeds (env : SubprocessEnv) (title message : String) :
    Bool :=
  (env (basicNotificationCmd title message)).completedZero

/-- The `which terminal-notifier` probe completes and reports the tool
absent (non-zero exit status). -/
def whichSaysAbsent (env : SubprocessEnv) : Bool :=
  match env whichCmd with
  | .ok r => r.returncode != 0
  | .error _ => false

/-- `send_notification` reaches its built-in fallback: the probe raises
or reports the tool absent, or the `terminal-notifier` invocation raises
or exits non-zero. -/
def basicFallbackInvoked (env : SubprocessEnv) (title message : String)
    (bundle_id : Option String) : Bool :=
  match env whichCmd with
  | .error _ => true
  | .ok r =>
    if r.returncode ≠ 0 then true
    else
      match env (terminalNotifierCmd title message bundle_id) with
      | .error _ => true
      | .ok r2 => r2.returncode ≠ 0

/-- C9: whenever `send_notification` invokes the built-in primitive —
in particular when the external tool is absent or its invocation fails —
and that primitive succeeds, the overall result is `True`; moreover, an
absent external tool diverts to the built-in primitive's result rather
than erroring out. -/
theorem c9_send_notification_fallback :
    ∀ (env : SubprocessEnv) (title message : String)
      (bundle_id : Option String),
      (basicFallbackInvoked env title message bundle_id = true →
        basicPrimitiveSucceeds env title message = true →
        (send_notification env title message bundle_id).1 = true) ∧
      (whichSaysAbsent env = true →
        (send_notification env title message bundle_id).1 =
          (send_basic_notification env title message).1) := by
  intro env title message bundle_id
  have hbasic : basicPrimitiveSucceeds env title message = true →
      (send_basic_notification env title message).1 = true := by
    intro hb
    unfold basicPrimitiveSucceeds CallOutcome.completedZero at hb
    unfold send_basic_notification
    cases hc : env (basicNotificationCmd title message) with
    | ok r =>
      rw [hc] at hb
      simp at hb
      simp [hc, hb]
    | error e => rw [hc] at hb; exact absurd hb (by simp)
  constructor
  · intro hinv hb
    have hb' := hbasic hb
    unfold basicFallbackInvoked at hinv
    unfold send_notification
    cases hw : env whichCmd with
    | error e => simpa using hb'
    | ok r =>
      rw [hw] at hinv
      by_cases hr : r.returncode = 0
      · simp only [hr, ne_eq, not_true_eq_false, if_false] at hinv
        cases ht : env (terminalNotifierCmd title message bundle_id) with
        | error e => simp [hr, ht, hb']
        | ok r2 =>
          rw [ht] at hinv
          simp only [decide_eq_true_eq] at hinv
          simp [hr, ht, hinv, hb']
      · simp [hr, hb']
  · intro habs
    unfold whichSaysAbsent at habs
    unfold send_notification
    cases hw : env whichCmd with
    | error e => rfl
    | ok r =>
      rw [hw] at habs
      simp only [bne_iff_ne, ne_eq, decide_eq_true_eq] at habs
      simp [habs]

/-- Witness for C9: an environment where the external tool is absent
(`which` exits 1) and every `osascript` call exits 0. -/
theorem c9_send_notification_fallback_witness :
    (send_notification
      (fun cmd => if cmd = whichCmd then .ok ⟨1, "", ""⟩
        else .ok ⟨0, "", ""⟩) "Claude Code" "Task completed" none).1 =
      true :=
  (c9_send_notification_fallback
    (fun cmd => if cmd = whichCmd then .ok ⟨1, "", ""⟩
      else .ok ⟨0, "", ""⟩) "Claude Code" "Task completed" none).1
    (by decide) (by decide)

/-- C10 counterexample: a window-title filter that matches no record's
title still selects (and focuses) the first cross-space record — the
first record's title does not contain the given string, refuting the
claim's selection rule as a complete description. -/
theorem c10_counterexample :
    selectTargetWindow (some "zzz")
        [{ title := some "ai_advisory_system", focusSucceeds := true }] =
      some { title := some "ai_advisory_system", focusSucceeds := true } ∧
    luaTitleMatches "zzz"
      { title := some "ai_advisory_system", focusSucceeds := true } =
        false ∧
    focus_app_window
      { cliPath := some "/usr/local/bin/hs", availProbe := .ok ⟨0, "", ""⟩,
        scriptRun := .completed,
        otherWindows :=
          [{ title := some "ai_advisory_system", focusSucceeds := true }] }
      (some "zzz") = true := by
  refine ⟨by decide, by decide, by decide⟩

/-- C10 amended: without a title filter the first record (in
query-returned order) is selected; with a title filter the first record
whose lowered title contains the lowered needle is selected, and when no
record matches, the selection falls back to the first record. -/
theorem c10_selection_rule :
    ∀ (t : String) (pre suf ws : List LuaWindow) (w : LuaWindow),
      selectTargetWindow none ws = ws.head? ∧
      ((∀ x ∈ pre, luaTitleMatches t x = false) →
        luaTitleMatches t w = true →
        selectTargetWindow (some t) (pre ++ w :: suf) = some w) ∧
      ((∀ x ∈ ws, luaTitleMatches t x = false) →
        selectTargetWindow (some t) ws = ws.head?) := by
  intro t pre suf ws w
  refine ⟨rfl, ?_, ?_⟩
  · intro hpre hw
    simp only [selectTargetWindow]
    have hfind : (pre ++ w :: suf).find? (luaTitleMatches t) = some w := by
      induction pre with
      | nil => simpa [List.find?] using List.find?_cons_of_pos suf hw
      | cons x xs ih =>
        have hx : luaTitleMatches t x = false :=
          hpre x (List.mem_cons_self x xs)
        rw [List.cons_append, List.find?_cons_of_neg _ (by simp [hx])]
        exact ih fun y hy => hpre y (List.mem_cons_of_mem x hy)
    rw [hfind]
  · intro hall
    simp only [selectTargetWindow]
    have hfind : ws.find? (luaTitleMatches t) = none :=
      List.find?_eq_none.mpr fun x hx => by simp [hall x hx]
    rw [hfind]

/-- Witness for C10 (amended): with needle `"code"`, the first
non-matching record is skipped and the first matching record selected. -/
theorem c10_selection_rule_witness :
    selectTargetWindow (some "code")
        [{ title := some "Other", focusSucceeds := false },
         { title := some "My Code Editor", focusSucceeds := false }] =
      some { title := some "My Code Editor", focusSucceeds := false } :=
  (c10_selection_rule "code"
    [{ title := some "Other", focusSucceeds := false }] [] []
    { title := some "My Code Editor", focusSucceeds := false }).2.1
    (by decide) (by decide)

/-- A line of `lsappinfo` output never sets the `method` key. -/
theorem parseLsappinfoLine_method (info : AppInfo) (line : String) :
    (parseLsappinfoLine info line).method = info.method := by
  have gen : ∀ k v : String,
      (if k = "pid" then
        match pyToInt v with
        | some n => { info with pid := some n }
        | none => info
      else if k = "CFBundleIdentifier" then
        { info with bundle_id := some v }
      else if k = "LSDisplayName" then
        { info with name := some v }
      else info).method = info.method := by
    intro k v
    by_cases hk : k = "pid"
    · rw [if_pos hk]
      cases pyToInt v <;> rfl
    · rw [if_neg hk]
      by_cases hb : k = "CFBundleIdentifier"
      · rw [if_pos hb]
      · rw [if_neg hb]
        by_cases hn : k = "LSDisplayName"
        · rw [if_pos hn]
        · rw [if_neg hn]
  unfold parseLsappinfoLine
  by_cases h1 : (pySplitOn line "=").length ≥ 2
  · rw [if_pos h1]
    exact gen _ _
  · rw [if_neg h1]

/-- Folding `lsappinfo` lines never sets the `method` key. -/
theorem foldl_parseLsappinfoLine_method :
    ∀ (lines : List String) (acc : AppInfo),
      (lines.foldl parseLsappinfoLine acc).method = acc.method
  | [], _ => rfl
  | l :: ls, acc => by
    rw [List.foldl_cons, foldl_parseLsappinfoLine_method ls,
      parseLsappinfoLine_method]

/-- The dict built by `_parse_lsappinfo_output` carries no `method` key. -/
theorem parse_lsappinfo_output_method (output : String) :
    (parse_lsappinfo_output output).method = none := by
  unfold parse_lsappinfo_output
  rw [foldl_parseLsappinfoLine_method]

/-- The fallback helper returns either the `fallback`-tagged dict (with
sentinel bundle id and pid, a name, and no window title) or exactly the
ultimate-fallback dict. -/
theorem get_fallback_app_info_cases (env : DetectorEnv) :
    ((get_fallback_app_info env).method = some "fallback" ∧
      (get_fallback_app_info env).bundle_id = some "unknown" ∧
      (get_fallback_app_info env).pid = some 0 ∧
      (get_fallback_app_info env).name.isSome = true ∧
      (get_fallback_app_info env).window_title = none) ∨
    get_fallback_app_info env = ultimateFallbackInfo := by
  unfold get_fallback_app_info
  cases hf : env.fallback with
  | error e => right; rfl
  | ok r =>
    by_cases hr : r.returncode == 0
    · left
      simp [hr]
    · right
      simp [hr]

/-- A concrete environment in which the primary chain fully succeeds but
the `lsappinfo info` output lacks an `LSDisplayName` line and the window
title query raises. -/
def primaryNoNameEnv : DetectorEnv :=
  { front := .ok ⟨0, "ASN:0x0-0x3d18d15:", ""⟩,
    info := fun _ =>
      .ok ⟨0, "\"pid\"=123\n\"CFBundleIdentifier\"=\"com.example.app\"", ""⟩,
    windowTitle := .error "boom",
    fallback := .error "boom" }

/-- C6 counterexample: a successful primary-path snapshot whose dict has
no `method` key at all (so no `detection_method = primary` tag) and no
`name` key (rather than the `"unknown"` sentinel). -/
theorem c6_counterexample :
    get_current_app_info primaryNoNameEnv =
      { name := none, bundle_id := some "com.example.app",
        pid := some 123, window_title := none, method := none } := by
  decide

/-- C6 amended: every snapshot either comes from the primary path and
carries no `method` tag (consumers read the missing fields through
defaults), or is the `fallback`-tagged dict with sentinel bundle id and
pid, or is exactly the ultimate-fallback dict. -/
theorem c6_method_tags :
    ∀ env : DetectorEnv,
      (get_current_app_info env).method = none ∨
      ((get_current_app_info env).method = some "fallback" ∧
        (get_current_app_info env).bundle_id = some "unknown" ∧
        (get_current_app_info env).pid = some 0 ∧
        (get_current_app_info env).name.isSome = true ∧
        (get_current_app_info env).window_title = none) ∨
      get_current_app_info env = ultimateFallbackInfo := by
  intro env
  have hfb :
      (get_fallback_app_info env).method = none ∨
      ((get_fallback_app_info env).method = some "fallback" ∧
        (get_fallback_app_info env).bundle_id = some "unknown" ∧
        (get_fallback_app_info env).pid = some 0 ∧
        (get_fallback_app_info env).name.isSome = true ∧
        (get_fallback_app_info env).window_title = none) ∨
      get_fallback_app_info env = ultimateFallbackInfo := by
    rcases get_fallback_app_info_cases env with h | h
    · exact Or.inr (Or.inl h)
    · exact Or.inr (Or.inr h)
  unfold get_current_app_info
  cases hf : env.front with
  | error e => exact hfb
  | ok r =>
    by_cases hr : r.returncode ≠ 0
    · simpa [hr] using hfb
    · simp only [hr, if_false]
      by_cases hc : containsChar (pyStrip r.stdout) ':' = true
      · simp only [hc, if_true]
        cases hi : env.info (rstripColons (pyStrip r.stdout)) with
        | error e => exact hfb
        | ok r2 =>
          by_cases hr2 : r2.returncode ≠ 0
          · simpa [hr2] using hfb
          · simp only [hr2, if_false]
            left
            cases hw : get_current_window_title env with
            | none => exact parse_lsappinfo_output_method r2.stdout
            | some t =>
              by_cases ht : t ≠ ""
              · simpa [ht] using parse_lsappinfo_output_method r2.stdout
              · simpa [ht] using parse_lsappinfo_output_method r2.stdout
      · simp only [Bool.not_eq_true] at hc
        simp only [hc, Bool.false_eq_true, if_false]
        exact hfb

end Notifier
